import Mathlib

/-!
Shallow embedding, in Lean 4, of the geometry-indexing and channel-mapping
core of the larcore repository (`larcore/Geometry/GeometryCore.cxx`,
`Geometry/CryostatGeo.cxx`, `SimpleTypesAndConstants/geo_types.h`), together
with theorems settling the behavioural claims about it.

Machine floating-point values (`double` in the source) are modelled as
rational numbers; the embedded algorithms use only field arithmetic,
absolute values and comparisons, so every definition is executable and
decidable on concrete inputs.
-/

namespace Larcore

/-- Modelled from the spec: the threshold of the comparison helper
`lar::util::RealComparisons` instantiated at `GeometryCore.cxx:52` with
`1e-8` (the helper's own source is not part of this snapshot). -/
def coordEps : ℚ := 1 / 100000000

/-- Absolute value on the rationals, written so that it evaluates by kernel
reduction on concrete inputs (the library `|·|` goes through lattice
instances that do not reduce). -/
def rabs (v : ℚ) : ℚ :=
  if v < 0 then -v else v

theorem rabs_eq_abs (v : ℚ) : rabs v = |v| := by
  unfold rabs
  split <;> [exact (abs_of_neg (by assumption)).symm;
             exact (abs_of_nonneg (by linarith [not_lt.mp (by assumption)])).symm]

/-- Smaller of two rationals, evaluating by kernel reduction. -/
def rmin (a b : ℚ) : ℚ :=
  if a ≤ b then a else b

theorem rmin_eq_min (a b : ℚ) : rmin a b = min a b := by
  unfold rmin
  split <;> [exact (min_eq_left (by assumption)).symm;
             exact (min_eq_right (by linarith [not_le.mp (by assumption)])).symm]

/-- Larger of two rationals, evaluating by kernel reduction. -/
def rmax (a b : ℚ) : ℚ :=
  if a ≤ b then b else a

theorem rmax_eq_max (a b : ℚ) : rmax a b = max a b := by
  unfold rmax
  split <;> [exact (max_eq_right (by assumption)).symm;
             exact (max_eq_left (by linarith [not_le.mp (by assumption)])).symm]

/-- Modelled from the spec: the epsilon-tolerant zero test of
`lar::util::RealComparisons` (not in this snapshot); the spec asks that
"parallel" be reported "when the determinant is within an epsilon of zero
(never exact floating-point equality)". -/
def coordIsZero (v : ℚ) : Bool :=
  decide (rabs v ≤ coordEps)

/-- Modelled from the spec: `RealComparisons::withinSorted` (not in this
snapshot); the spec asks that the solution lie "within both segments'
bounding intervals (inclusive, epsilon-tolerant at endpoints)", the two
bounds being given in either order. -/
def withinSorted (v lower upper : ℚ) : Bool :=
  decide (rmin lower upper - coordEps ≤ v ∧ v ≤ rmax lower upper + coordEps)

/-- Embedding of `GeometryCore::IntersectLines` (GeometryCore.cxx:1218-1242):
solves the 2-by-2 determinant form for the crossing point of the two
supporting lines. `none` models the `false` return (epsilon test of the
determinant finds it zero, the lines are parallel); `some (x, y)` models the
`true` return together with the values written to the output parameters. -/
def IntersectLines (Asx Asy Aex Aey Bsx Bsy Bex Bey : ℚ) : Option (ℚ × ℚ) :=
  let denom := (Asx - Aex) * (Bsy - Bey) - (Asy - Aey) * (Bsx - Bex)
  if coordIsZero denom then none
  else
    let A := (Asx * Aey - Asy * Aex) / denom
    let B := (Bsx * Bey - Bsy * Bex) / denom
    some ((Bsx - Bex) * A - (Asx - Aex) * B, (Bsy - Bey) * A - (Asy - Aey) * B)

/-- Embedding of `GeometryCore::PointWithinSegments`
(GeometryCore.cxx:1812-1823): the candidate point `(x, y)` must lie within
the bounding interval of each coordinate of each segment. -/
def PointWithinSegments (Asx Asy Aex Aey Bsx Bsy Bex Bey x y : ℚ) : Bool :=
  withinSorted x Asx Aex && withinSorted y Asy Aey &&
  withinSorted x Bsx Bex && withinSorted y Bsy Bey

/-- Embedding of `GeometryCore::IntersectSegments`
(GeometryCore.cxx:1245-1268), with explicit state for the by-reference
output parameters: `(x0, y0)` holds the values of the caller's `x`, `y`
variables at entry and the result carries the returned flag together with
their final values. The source tests `if (bCross)` and returns `false`
there — that is, it takes the "The segments are parallel!" early exit
exactly when `IntersectLines` did find a crossing — and falls through to
`PointWithinSegments` (reading the never-assigned `x`, `y`) when the lines
are parallel. -/
def IntersectSegments (Asx Asy Aex Aey Bsx Bsy Bex Bey x0 y0 : ℚ) :
    Bool × ℚ × ℚ :=
  match IntersectLines Asx Asy Aex Aey Bsx Bsy Bex Bey with
  | some (x, y) => (false, x, y)
  | none => (PointWithinSegments Asx Asy Aex Aey Bsx Bsy Bex Bey x0 y0, x0, y0)

/-- Embedding of `geo::CryostatID::InvalidID` (geo_types.h:69): the special
code for an invalid ID, `UINT_MAX`. -/
def InvalidID : ℕ := 4294967295

/-- Embedding of `geo::CryostatID` (geo_types.h:59-95): validity flag plus
the cryostat index. -/
structure CryostatID where
  isValid : Bool
  Cryostat : ℕ
deriving DecidableEq, Repr

/-- Embedding of `geo::TPCID` (geo_types.h:130-157), flattened: the
`CryostatID` base plus the TPC index. -/
structure TPCID where
  isValid : Bool
  Cryostat : ℕ
  TPC : ℕ
deriving DecidableEq, Repr

/-- Embedding of `geo::PlaneID` (geo_types.h:211-236), flattened: the
`TPCID` base plus the plane index. -/
structure PlaneID where
  isValid : Bool
  Cryostat : ℕ
  TPC : ℕ
  Plane : ℕ
deriving DecidableEq, Repr

/-- Embedding of `geo::WireID` (geo_types.h:316-345), flattened: the
`PlaneID` base plus the wire index. -/
structure WireID where
  isValid : Bool
  Cryostat : ℕ
  TPC : ℕ
  Plane : ℕ
  Wire : ℕ
deriving DecidableEq, Repr

/-- Embedding of the `static_cast<CryostatID const&>` slicing of a `TPCID`. -/
def TPCID.asCryostatID (t : TPCID) : CryostatID :=
  ⟨t.isValid, t.Cryostat⟩

/-- Embedding of the `static_cast<TPCID const&>` slicing of a `PlaneID`. -/
def PlaneID.asTPCID (p : PlaneID) : TPCID :=
  ⟨p.isValid, p.Cryostat, p.TPC⟩

/-- Embedding of the `static_cast<PlaneID const&>` slicing of a `WireID`. -/
def WireID.asPlaneID (w : WireID) : PlaneID :=
  ⟨w.isValid, w.Cryostat, w.TPC, w.Plane⟩

/-- Embedding of the slicing of a `WireID` down to its `TPCID` base. -/
def WireID.asTPCID (w : WireID) : TPCID :=
  ⟨w.isValid, w.Cryostat, w.TPC⟩

/-- Embedding of `geo::CryostatID::ThreeWayComparison` (geo_types.h:92-93):
0 when equal, -1 when the first index is smaller, +1 when larger. -/
def ThreeWayComparison (a b : ℕ) : ℤ :=
  if a = b then 0 else if a < b then -1 else 1

/-- Embedding of `geo::CryostatID::cmp` (geo_types.h:87-88). -/
def CryostatID.cmp (a b : CryostatID) : ℤ :=
  ThreeWayComparison a.Cryostat b.Cryostat

/-- Embedding of `geo::TPCID::cmp` (geo_types.h:147-154): compare the
cryostat part first, then the TPC index. -/
def TPCID.cmp (a b : TPCID) : ℤ :=
  let cmpRes := CryostatID.cmp a.asCryostatID b.asCryostatID
  if cmpRes = 0 then ThreeWayComparison a.TPC b.TPC else cmpRes

/-- Embedding of `geo::PlaneID::cmp` (geo_types.h:225-232): compare the TPC
part first, then the plane index. -/
def PlaneID.cmp (a b : PlaneID) : ℤ :=
  let cmpRes := TPCID.cmp a.asTPCID b.asTPCID
  if cmpRes = 0 then ThreeWayComparison a.Plane b.Plane else cmpRes

/-- Embedding of `geo::WireID::cmp` (geo_types.h:327-334): compare the plane
part first, then the wire index. -/
def WireID.cmp (a b : WireID) : ℤ :=
  let cmpRes := PlaneID.cmp a.asPlaneID b.asPlaneID
  if cmpRes = 0 then ThreeWayComparison a.Wire b.Wire else cmpRes

/-- Embedding of `geo::operator== (TPCID, TPCID)` (geo_types.h:386-390):
compares the cryostat and TPC indices, explicitly ignoring validity. -/
def TPCID.sameIndices (a b : TPCID) : Bool :=
  a.Cryostat == b.Cryostat && a.TPC == b.TPC

/-- Embedding of `geo::operator< (CryostatID, CryostatID)`
(geo_types.h:381-383): increasing cryostat index. -/
def CryostatID.lt (a b : CryostatID) : Bool :=
  decide (a.Cryostat < b.Cryostat)

/-- Embedding of `geo::operator< (TPCID, TPCID)` (geo_types.h:401-407):
three-way comparison of the cryostat part, then the TPC index. -/
def TPCID.lt (a b : TPCID) : Bool :=
  let cmpRes := CryostatID.cmp a.asCryostatID b.asCryostatID
  if cmpRes = 0 then decide (a.TPC < b.TPC) else decide (cmpRes < 0)

/-- Embedding of `geo::operator< (PlaneID, PlaneID)` (geo_types.h:425-431):
three-way comparison of the TPC part, then the plane index. -/
def PlaneID.lt (a b : PlaneID) : Bool :=
  let cmpRes := TPCID.cmp a.asTPCID b.asTPCID
  if cmpRes = 0 then decide (a.Plane < b.Plane) else decide (cmpRes < 0)

/-- Embedding of `geo::operator< (WireID, WireID)` (geo_types.h:440-446):
three-way comparison of the plane part, then the wire index. -/
def WireID.lt (a b : WireID) : Bool :=
  let cmpRes := PlaneID.cmp a.asPlaneID b.asPlaneID
  if cmpRes = 0 then decide (a.Wire < b.Wire) else decide (cmpRes < 0)

/-- Coordinate value of the intersection record: the source stores a
`double` and uses the IEEE infinity as an explicit sentinel, modelled here
as a separate constructor over the rationals. -/
inductive CoordQ where
  | fin (q : ℚ)
  | inf
deriving DecidableEq, Repr

/-- Embedding of `geo::WireIDIntersection` (geo_types.h:448-458): the y and
z positions of the intersection and the TPC index. -/
structure WireIDIntersection where
  y : CoordQ
  z : CoordQ
  TPC : ℕ
deriving DecidableEq, Repr

/-- Sentinel record written by `WireIDsIntersect` on every failure path that
assigns it: infinite coordinates and the invalid TPC. -/
def noIntersection : WireIDIntersection :=
  ⟨CoordQ.inf, CoordQ.inf, InvalidID⟩

/-- Point of the 3-D world, coordinates modelled as rationals. -/
structure Point3 where
  x : ℚ
  y : ℚ
  z : ℚ
deriving DecidableEq, Repr

/-- Embedding of `GeometryCore::Segment_t`: the two endpoints of a wire, as
returned by `GeometryCore::WireEndPoints(WireID)` (GeometryCore.cxx:1132-1137),
which copies the wire's start and end without reordering. -/
structure Segment3 where
  start : Point3
  stop : Point3
deriving DecidableEq, Repr

/-- Parameters of a loaded wire geometry that `WireIDsIntersect` consults:
whether a wire exists (`GeometryCore::HasWire`, delegating to the plane
store) and the wire's two endpoints (`GeometryCore::WireEndPoints`). -/
structure WireGeometry where
  hasWire : WireID → Bool
  wireEndPoints : WireID → Segment3

/-- Embedding of `GeometryCore::WireIDIntersectionCheck`
(GeometryCore.cxx:1783-1809): failure when the wires are on different TPCs
(the `asTPCID() != wid2` slice comparison ignores validity), when they are
on the same plane, or when either wire does not exist. -/
def WireIDIntersectionCheck (g : WireGeometry) (wid1 wid2 : WireID) : Bool :=
  if !(TPCID.sameIndices wid1.asTPCID wid2.asTPCID) then false
  else if wid1.Plane == wid2.Plane then false
  else if !(g.hasWire wid1) then false
  else if !(g.hasWire wid2) then false
  else true

/-- Crossing point of the supporting lines of two wires, projected on the
(y, z) coordinates exactly as `GeometryCore::WireIDsIntersect`
(GeometryCore.cxx:1294-1299) feeds them to `IntersectLines`. -/
def wireCrossing (g : WireGeometry) (wid1 wid2 : WireID) : Option (ℚ × ℚ) :=
  let w1 := g.wireEndPoints wid1
  let w2 := g.wireEndPoints wid2
  IntersectLines w1.start.y w1.start.z w1.stop.y w1.stop.z
                 w2.start.y w2.start.z w2.stop.y w2.stop.z

/-- Containment of a candidate point within both wires' (y, z) bounding
intervals, exactly as `GeometryCore::WireIDsIntersect`
(GeometryCore.cxx:1305-1309) feeds `PointWithinSegments`. -/
def wireWithin (g : WireGeometry) (wid1 wid2 : WireID) (p : ℚ × ℚ) : Bool :=
  let w1 := g.wireEndPoints wid1
  let w2 := g.wireEndPoints wid2
  PointWithinSegments w1.start.y w1.start.z w1.stop.y w1.stop.z
                      w2.start.y w2.start.z w2.stop.y w2.stop.z p.1 p.2

/-- Embedding of `GeometryCore::WireIDsIntersect(WireID, WireID,
WireIDIntersection)` (GeometryCore.cxx:1271-1316): the returned flag
together with the record written through the reference parameter. On a
failed precondition or parallel lines the record is the full sentinel; when
the lines cross, the crossing point is written to the record and the TPC
field is the first wire's TPC if the point is within both segments, the
invalid ID otherwise. -/
def WireIDsIntersect (g : WireGeometry) (wid1 wid2 : WireID) :
    Bool × WireIDIntersection :=
  if !(WireIDIntersectionCheck g wid1 wid2) then (false, noIntersection)
  else
    match wireCrossing g wid1 wid2 with
    | none => (false, noIntersection)
    | some p =>
      let within := wireWithin g wid1 wid2 p
      (within, ⟨CoordQ.fin p.1, CoordQ.fin p.2,
                if within then wid1.TPC else InvalidID⟩)

/-- Embedding of `GeometryCore::ValueInRange` (GeometryCore.cxx:1124-1129):
sort the two bounds, answer `true` within `1e-6` of either bound, otherwise
test inclusive containment between the sorted bounds. -/
def ValueInRange (value minV maxV : ℚ) : Bool :=
  let lo := if minV > maxV then maxV else minV
  let hi := if minV > maxV then minV else maxV
  if decide (rabs (value - lo) < 1 / 1000000) ||
     decide (rabs (value - hi) < 1 / 1000000) then
    true
  else
    decide (value ≥ lo) && decide (value ≤ hi)

/-- Embedding of the trigonometric combination of the inverted input slopes
inside `GeometryCore::ComputeThirdPlaneSlope` (GeometryCore.cxx:1524-1530).
The trigonometric sine is an external library function, passed as the
parameter `sinq`. -/
def slopeCombination (sinq : ℚ → ℚ)
    (angle1 slope1 angle2 slope2 angle3 : ℚ) : ℚ :=
  ((1 / slope1) * sinq (angle3 - angle2)
    - (1 / slope2) * sinq (angle3 - angle1)) / sinq (angle1 - angle2)

/-- Embedding of `GeometryCore::ComputeThirdPlaneSlope`
(GeometryCore.cxx:1512-1535). When both input slopes have magnitude below
`0.001` the function returns `0.001` at once; the variable `slope3` starts
at `0.001` and is overwritten with the trigonometric combination of the
inverted input slopes only when both magnitudes exceed `0.001`; finally
`slope3` is inverted, an exact zero becoming `999`. -/
def ComputeThirdPlaneSlope (sinq : ℚ → ℚ)
    (angle1 slope1 angle2 slope2 angle3 : ℚ) : ℚ :=
  if decide (rabs slope1 < 1 / 1000) && decide (rabs slope2 < 1 / 1000) then
    1 / 1000
  else
    let slope3 :=
      if decide (rabs slope1 > 1 / 1000) && decide (rabs slope2 > 1 / 1000) then
        slopeCombination sinq angle1 slope1 angle2 slope2 angle3
      else (1 : ℚ) / 1000
    if slope3 ≠ 0 then 1 / slope3 else 999

/-- Embedding of `geo::DriftDirection_t` (geo_types.h:51-55). -/
inductive DriftDirection where
  | unknownDrift
  | posX
  | negX
deriving DecidableEq, Repr

/-- Data of one TPC that the drift-direction derivation of
`CryostatGeo::SortSubVolumes` (CryostatGeo.cxx:152-178) consults: the world
x coordinate of the TPC origin (`tpcworld[0]`), the world x coordinate of
its first plane's origin (`planeworld[0]`), and the current flag. -/
structure TPCRec where
  tpcOriginX : ℚ
  planeOriginX : ℚ
  drift : DriftDirection
deriving DecidableEq, Repr

/-- Embedding of the drift-direction assignment inside
`CryostatGeo::SortSubVolumes` (CryostatGeo.cxx:171-173): the flag is set to
negative-x when `tpcworld[0] > 1.01*planeworld[0]`, to positive-x when
`tpcworld[0] < 0.99*planeworld[0]`, and is left untouched otherwise. -/
def setDriftDirection (t : TPCRec) : TPCRec :=
  if t.tpcOriginX > (101 / 100) * t.planeOriginX then
    { t with drift := DriftDirection.negX }
  else if t.tpcOriginX < (99 / 100) * t.planeOriginX then
    { t with drift := DriftDirection.posX }
  else t

/-- Embedding of the per-TPC loop of `CryostatGeo::SortSubVolumes`
(CryostatGeo.cxx:155-177) restricted to the drift-direction derivation: the
assignment is applied to every TPC of the (already sorted) collection. -/
def SortSubVolumesDrift (ts : List TPCRec) : List TPCRec :=
  ts.map setDriftDirection

/-- Bounding boxes of a loaded geometry as `FindCryostatAtPosition`
(GeometryCore.cxx:337-379) and the TPC-level box table of
`CryostatGeo::PositionToTPC` (CryostatGeo.cxx:244-299) build them: each
level stores, per element, the world origin and half-dimensions from which the
six face values origin±half are derived, plus the configured wiggle
(`PositionEpsilon`, default `1e-4`, GeometryCore.cxx:64). -/
structure BoxedGeometry where
  ncryo : ℕ
  cryoCenter : ℕ → Point3
  cryoHalf : ℕ → Point3
  ntpc : ℕ → ℕ
  tpcCenter : ℕ → ℕ → Point3
  tpcHalf : ℕ → ℕ → Point3
  positionWiggle : ℚ

/-- Containment test of one box level: every coordinate must lie between
the lower face value and the upper face value, each multiplied by the
tolerance factor `wiggle` (GeometryCore.cxx:369-374, CryostatGeo.cxx:283-288). -/
def inWiggledBox (wiggle : ℚ) (center half p : Point3) : Bool :=
  decide ((center.x - half.x) * wiggle ≤ p.x) &&
  decide (p.x ≤ (center.x + half.x) * wiggle) &&
  decide ((center.y - half.y) * wiggle ≤ p.y) &&
  decide (p.y ≤ (center.y + half.y) * wiggle) &&
  decide ((center.z - half.z) * wiggle ≤ p.z) &&
  decide (p.z ≤ (center.z + half.z) * wiggle)

/-- First index in `[off, off + count)` satisfying `pred`, scanning upward:
the search loop shared by `FindCryostatAtPosition` and the TPC-level lookup. -/
def searchFrom (pred : ℕ → Bool) (off : ℕ) : ℕ → Option ℕ
  | 0 => none
  | n + 1 => if pred off then some off else searchFrom pred (off + 1) n

/-- Embedding of `GeometryCore::FindCryostatAtPosition`
(GeometryCore.cxx:337-379): return the first cryostat whose wiggled box
contains the point, or the invalid ID. -/
def FindCryostatAtPosition (g : BoxedGeometry) (p : Point3) : ℕ :=
  (searchFrom
    (fun c => inWiggledBox (1 + g.positionWiggle) (g.cryoCenter c) (g.cryoHalf c) p)
    0 g.ncryo).getD InvalidID

/-- Modelled from the spec: `CryostatGeo::FindTPCAtPosition`, the TPC-level
lookup called at GeometryCore.cxx:308, is not in this snapshot; its box
test is the loop of `CryostatGeo::PositionToTPC` (CryostatGeo.cxx:275-291,
in the snapshot), and per the spec ("no match yields NotFound") it returns
`UINT_MAX` — the value GeometryCore.cxx:309 checks — instead of the
exception that `PositionToTPC` throws. -/
def findTPCWithinCryostat (g : BoxedGeometry) (c : ℕ) (p : Point3) : ℕ :=
  (searchFrom
    (fun t => inWiggledBox (1 + g.positionWiggle) (g.tpcCenter c t) (g.tpcHalf c t) p)
    0 (g.ntpc c)).getD InvalidID

/-- Embedding of `GeometryCore::FindTPCAtPosition` (GeometryCore.cxx:300-314):
start from the default-invalid `TPCID`, fill in the cryostat index and bail
out if invalid, fill in the TPC index and bail out if invalid, else mark
the ID valid. -/
def FindTPCAtPosition (g : BoxedGeometry) (p : Point3) : TPCID :=
  let cid := FindCryostatAtPosition g p
  if cid = InvalidID then ⟨false, cid, InvalidID⟩
  else
    let tid := findTPCWithinCryostat g cid p
    if tid = InvalidID then ⟨false, cid, tid⟩
    else ⟨true, cid, tid⟩

/-- Opaque parameters of the nearest-channel query: the per-plane nearest
wire computation (`Plane(planeid).NearestWireID`, GeometryCore.cxx:1062-1067)
and the channel map's wire-to-channel function
(`fChannelMapAlg->PlaneWireToChannel`, GeometryCore.cxx:1115-1119). -/
structure ChannelQueryModel where
  planeNearestWireID : PlaneID → Point3 → WireID
  mapPlaneWireToChannel : WireID → ℕ

/-- Embedding of `GeometryCore::NearestWireID(TVector3, PlaneID)`
(GeometryCore.cxx:1062-1067): delegate to the plane. -/
def NearestWireID (g : ChannelQueryModel) (worldPos : Point3)
    (planeid : PlaneID) : WireID :=
  g.planeNearestWireID planeid worldPos

/-- Embedding of `GeometryCore::PlaneWireToChannel`
(GeometryCore.cxx:1115-1119): delegate to the channel map. -/
def PlaneWireToChannel (g : ChannelQueryModel) (wireid : WireID) : ℕ :=
  g.mapPlaneWireToChannel wireid

/-- Embedding of `GeometryCore::NearestChannel(TVector3, PlaneID)`
(GeometryCore.cxx:1104-1113): the conversion is performed by composing the
nearest-wire lookup with the wire-to-channel mapping. -/
def NearestChannel (g : ChannelQueryModel) (worldPos : Point3)
    (planeid : PlaneID) : ℕ :=
  PlaneWireToChannel g (NearestWireID g worldPos planeid)

/-- Counts of the elements of a loaded geometry at every level, used to
enumerate the valid wire IDs. -/
structure GeomDims where
  ncryo : ℕ
  ntpc : ℕ → ℕ
  nplanes : ℕ → ℕ → ℕ
  nwires : ℕ → ℕ → ℕ → ℕ

/-- Enumeration of every valid wire ID of the geometry in the canonical
sorted (lexicographic) order the ID assigner stamps. -/
def allWires (d : GeomDims) : List WireID :=
  (List.range d.ncryo).flatMap fun c =>
    (List.range (d.ntpc c)).flatMap fun t =>
      (List.range (d.nplanes c t)).flatMap fun p =>
        (List.range (d.nwires c t p)).map fun w => ⟨true, c, t, p, w⟩

/-- Modelled from the spec: the channel map strategy (`fChannelMapAlg`, to
which `GeometryCore::PlaneWireToChannel` delegates at
GeometryCore.cxx:1116-1119, is not in this snapshot). Per the spec the map
is built after sorting and ID assignment and sends each wire to exactly one
channel; channels of the standard map number the wires contiguously in ID
order, so the channel of a wire is its position in the sorted enumeration. -/
def stdPlaneWireToChannel (d : GeomDims) (wid : WireID) : ℕ :=
  (allWires d).indexOf wid

/-- Modelled from the spec: the channel map's `ChannelToWire`
(`fChannelMapAlg->ChannelToWire`, delegated to at GeometryCore.cxx:1002-1005,
is not in this snapshot). Per the spec a channel aggregates the wires
mapped to it — for the standard one-wire-per-channel map the single wire at
that position — and "an out-of-range/unmapped channel returns an empty
sequence (not a failure)". -/
def stdChannelToWire (d : GeomDims) (channel : ℕ) : List WireID :=
  if h : channel < (allWires d).length then [(allWires d).get ⟨channel, h⟩]
  else []

/-- Claim C1, evaluated at the failing input. On segments A from (0,0) to
(2,0) and B from (1,-1) to (1,1) the supporting lines cross at (1,0), a
point within both segments, so the claim requires `IntersectSegments` to
report the intersection; instead it takes the branch that logs "The
segments are parallel!" and returns `false`, because the source inverted
the test of the `IntersectLines` flag. Conversely, on the overlapping
parallel segments A from (0,0) to (2,0) and B from (1,0) to (3,0), with the
caller's output variables stale at (3/2, 0), it reports an intersection. -/
theorem C1_intersectSegments_inverted :
    IntersectLines 0 0 2 0 1 (-1) 1 1 = some (1, 0) ∧
    PointWithinSegments 0 0 2 0 1 (-1) 1 1 1 0 = true ∧
    (IntersectSegments 0 0 2 0 1 (-1) 1 1 0 0).1 = false ∧
    IntersectLines 0 0 2 0 1 0 3 0 = none ∧
    (IntersectSegments 0 0 2 0 1 0 3 0 (3 / 2) 0).1 = true := by
  have hIL : IntersectLines 0 0 2 0 1 (-1) 1 1 = some (1, 0) := by
    norm_num [IntersectLines, coordIsZero, rabs, coordEps]
  have hPar : IntersectLines 0 0 2 0 1 0 3 0 = none := by
    norm_num [IntersectLines, coordIsZero, rabs, coordEps]
  have hPW : PointWithinSegments 0 0 2 0 1 (-1) 1 1 1 0 = true := by
    norm_num [PointWithinSegments, withinSorted, rmin, rmax, coordEps]
  have hPW2 : PointWithinSegments 0 0 2 0 1 0 3 0 (3 / 2) 0 = true := by
    norm_num [PointWithinSegments, withinSorted, rmin, rmax, coordEps]
  refine ⟨hIL, hPW, ?_, hPar, ?_⟩
  · unfold IntersectSegments
    rw [hIL]
  · unfold IntersectSegments
    rw [hPar]
    exact hPW2

/-- Characterization of `ValueInRange`: true exactly when the value is
strictly within 1e-6 of one of the sorted bounds or lies between them. -/
theorem ValueInRange_eq_true_iff (value a b : ℚ) :
    ValueInRange value a b = true ↔
      |value - min a b| < 1 / 1000000 ∨ |value - max a b| < 1 / 1000000 ∨
      (min a b ≤ value ∧ value ≤ max a b) := by
  simp only [ValueInRange, Bool.or_eq_true, decide_eq_true_eq, rabs_eq_abs]
  split_ifs with hab h h
  · refine iff_of_true rfl ?_
    rw [min_eq_right (le_of_lt hab), max_eq_left (le_of_lt hab)]
    tauto
  · rw [min_eq_right (le_of_lt hab), max_eq_left (le_of_lt hab)]
    simp only [Bool.and_eq_true, decide_eq_true_eq, ge_iff_le]
    tauto
  · refine iff_of_true rfl ?_
    rw [min_eq_left (not_lt.mp hab), max_eq_right (not_lt.mp hab)]
    tauto
  · rw [min_eq_left (not_lt.mp hab), max_eq_right (not_lt.mp hab)]
    simp only [Bool.and_eq_true, decide_eq_true_eq, ge_iff_le]
    tauto

/-- Claim C10: `ValueInRange` accepts its bounds in either order; it
answers true whenever the value is within 1e-6 of either bound, even when
the value lies strictly outside the interval; and away from both bounds it
answers true exactly when the value lies between the smaller and the larger
bound, inclusive. -/
theorem C10_valueInRange_spec (value a b : ℚ) :
    ValueInRange value a b = ValueInRange value b a ∧
    ((|value - a| < 1 / 1000000 ∨ |value - b| < 1 / 1000000) →
      ValueInRange value a b = true) ∧
    (¬(|value - a| < 1 / 1000000 ∨ |value - b| < 1 / 1000000) →
      (ValueInRange value a b = true ↔ min a b ≤ value ∧ value ≤ max a b)) := by
  refine ⟨?_, ?_, ?_⟩
  · rw [Bool.eq_iff_iff, ValueInRange_eq_true_iff, ValueInRange_eq_true_iff,
      min_comm, max_comm]
  · intro h
    rw [ValueInRange_eq_true_iff]
    rcases le_total a b with hab | hab
    · rw [min_eq_left hab, max_eq_right hab]; tauto
    · rw [min_eq_right hab, max_eq_left hab]; tauto
  · intro h
    rw [ValueInRange_eq_true_iff]
    rcases le_total a b with hab | hab
    · rw [min_eq_left hab, max_eq_right hab]; tauto
    · rw [min_eq_right hab, max_eq_left hab]; tauto

/-- Witness for claim C10 at a concrete input: the value 1/2000000 is
within 1e-6 of the bound 0 of the range (0, 1), so the range test accepts
it. -/
theorem C10_valueInRange_witness : ValueInRange (1 / 2000000 : ℚ) 0 1 = true :=
  (C10_valueInRange_spec (1 / 2000000) 0 1).2.1
    (Or.inl (by rw [sub_zero, abs_of_pos (by norm_num)]; norm_num))

/-- Claim C6, counterexample. With the sine modelled as the constant 1 and
input slopes 1/2000 (below the 0.001 threshold) and 1 (above it), the
claim's "otherwise" branch — invert the slopes, combine, invert back —
would give 1/1999, but the combination is only computed when both
magnitudes exceed 0.001, so the code returns 1/0.001 = 1000 instead. -/
theorem C6_thirdPlaneSlope_counterexample :
    ComputeThirdPlaneSlope (fun _ => 1) 0 (1 / 2000) 0 1 0 = 1000 ∧
    1 / slopeCombination (fun _ => 1) 0 (1 / 2000) 0 1 0 ≠ (1000 : ℚ) := by
  constructor
  · norm_num [ComputeThirdPlaneSlope, slopeCombination, rabs]
  · norm_num [slopeCombination]

/-- Claim C6, amended: when both input slopes have magnitude strictly below
0.001 the function returns exactly 0.001; when both magnitudes are strictly
above 0.001 it returns the double-inverted trigonometric combination, an
exactly-zero combination mapping to 999; in every remaining case (some
magnitude at or below the threshold, but not both below) it returns 1000,
the inversion of the 0.001 default. -/
theorem C6_thirdPlaneSlope_amended (sinq : ℚ → ℚ)
    (angle1 slope1 angle2 slope2 angle3 : ℚ) :
    (|slope1| < 1 / 1000 ∧ |slope2| < 1 / 1000 →
      ComputeThirdPlaneSlope sinq angle1 slope1 angle2 slope2 angle3
        = 1 / 1000) ∧
    (|slope1| > 1 / 1000 ∧ |slope2| > 1 / 1000 →
      ComputeThirdPlaneSlope sinq angle1 slope1 angle2 slope2 angle3
        = if slopeCombination sinq angle1 slope1 angle2 slope2 angle3 ≠ 0
          then 1 / slopeCombination sinq angle1 slope1 angle2 slope2 angle3
          else 999) ∧
    (¬(|slope1| < 1 / 1000 ∧ |slope2| < 1 / 1000) ∧
     ¬(|slope1| > 1 / 1000 ∧ |slope2| > 1 / 1000) →
      ComputeThirdPlaneSlope sinq angle1 slope1 angle2 slope2 angle3
        = 1000) := by
  simp only [ComputeThirdPlaneSlope, Bool.and_eq_true, decide_eq_true_eq,
    rabs_eq_abs]
  refine ⟨fun h => ?_, fun h => ?_, fun h => ?_⟩
  · rw [if_pos h]
  · have hn1 : ¬(|slope1| < 1 / 1000 ∧ |slope2| < 1 / 1000) :=
      fun hc => absurd hc.1 (not_lt.mpr h.1.le)
    rw [if_neg hn1, if_pos h]
  · rw [if_neg h.1, if_neg h.2]
    norm_num

/-- Witness for claim C6 at a concrete input: two slopes of magnitude
1/2000, both below the threshold, are clamped to 0.001. -/
theorem C6_thirdPlaneSlope_witness :
    ComputeThirdPlaneSlope (fun _ => 1) 0 (1 / 2000) 0 (-1 / 2000) 0
      = 1 / 1000 :=
  (C6_thirdPlaneSlope_amended (fun _ => 1) 0 (1 / 2000) 0 (-1 / 2000) 0).1
    (by constructor <;> (rw [abs_lt]; constructor <;> norm_num))

/-- Claim C5, counterexample. A TPC whose origin sits at world x = 1.005
while its first plane's origin sits at x = 1: the TPC origin exceeds the
plane origin, so the claim requires the negative-x flag, but the code only
sets it past the multiplicative threshold 1.01, so the flag keeps its
default unknown value — the module ends up with neither of the two
positive/negative values. -/
theorem C5_driftDirection_counterexample :
    (SortSubVolumesDrift [⟨201 / 200, 1, DriftDirection.unknownDrift⟩]).map
        TPCRec.drift = [DriftDirection.unknownDrift] ∧
    (201 / 200 : ℚ) > 1 := by
  constructor
  · norm_num [SortSubVolumesDrift, setDriftDirection]
  · norm_num

/-- Claim C5, amended: for every TPC of the sorted collection, the
drift-direction step sets the flag to negative-x when the TPC origin's
world x exceeds 1.01 times its first plane origin's x, to positive-x when
it is below 0.99 times it, and otherwise leaves the TPC record — flag
included — unchanged, so a module between the thresholds keeps its prior
(unknown) flag. -/
theorem C5_driftDirection_amended (ts : List TPCRec) (i : ℕ)
    (h : i < ts.length) :
    (SortSubVolumesDrift ts)[i]? = some (setDriftDirection (ts.get ⟨i, h⟩)) ∧
    ∀ t : TPCRec,
      ((101 / 100) * t.planeOriginX < t.tpcOriginX →
        setDriftDirection t = { t with drift := DriftDirection.negX }) ∧
      (¬((101 / 100) * t.planeOriginX < t.tpcOriginX) ∧
          t.tpcOriginX < (99 / 100) * t.planeOriginX →
        setDriftDirection t = { t with drift := DriftDirection.posX }) ∧
      (¬((101 / 100) * t.planeOriginX < t.tpcOriginX) ∧
          ¬(t.tpcOriginX < (99 / 100) * t.planeOriginX) →
        setDriftDirection t = t) := by
  constructor
  · rw [SortSubVolumesDrift, List.getElem?_map]
    rw [List.getElem?_eq_getElem h]
    simp [List.get_eq_getElem]
  · intro t
    refine ⟨fun ht => ?_, fun ht => ?_, fun ht => ?_⟩
    · rw [setDriftDirection, if_pos (by exact_mod_cast ht)]
    · rw [setDriftDirection, if_neg (by exact_mod_cast ht.1),
        if_pos (by exact_mod_cast ht.2)]
    · rw [setDriftDirection, if_neg (by exact_mod_cast ht.1),
        if_neg (by exact_mod_cast ht.2)]

/-- Witness for claim C5 at a concrete input: a TPC at world x = 2 whose
first plane sits at x = 1 is past the 1.01 threshold and receives the
negative-x flag. -/
theorem C5_driftDirection_witness :
    (SortSubVolumesDrift [⟨2, 1, DriftDirection.unknownDrift⟩])[0]? =
      some ⟨2, 1, DriftDirection.negX⟩ := by
  have h := C5_driftDirection_amended
    [⟨2, 1, DriftDirection.unknownDrift⟩] 0 (by norm_num)
  rw [h.1]
  show some (setDriftDirection ⟨2, 1, DriftDirection.unknownDrift⟩) = _
  rw [(h.2 ⟨2, 1, DriftDirection.unknownDrift⟩).1 (by norm_num)]

/-- Claim C2: two wires that are not comparable — on different TPCs (the
spec's Modules), or on the same plane — fail the precondition check of
`WireIDsIntersect`, which then reports the failure the way the spec's
InvalidArgument taxonomy entry describes: the false boolean together with
the sentinel record. -/
theorem C2_wireIDsIntersect_invalidArgument (g : WireGeometry)
    (w1 w2 : WireID)
    (h : TPCID.sameIndices w1.asTPCID w2.asTPCID = false ∨
         w1.Plane = w2.Plane) :
    WireIDIntersectionCheck g w1 w2 = false ∧
    WireIDsIntersect g w1 w2 = (false, noIntersection) := by
  have hc : WireIDIntersectionCheck g w1 w2 = false := by
    rcases h with h | h
    · simp [WireIDIntersectionCheck, h]
    · simp [WireIDIntersectionCheck, h]
  exact ⟨hc, by simp [WireIDsIntersect, hc]⟩

/-- Wire geometry with every wire present and degenerate endpoints: enough
for exercising the precondition failure paths. -/
def trivialWireGeometry : WireGeometry where
  hasWire := fun _ => true
  wireEndPoints := fun _ => ⟨⟨0, 0, 0⟩, ⟨0, 0, 0⟩⟩

/-- Witness for claim C2 at a concrete input: wires on TPCs 0 and 1 of the
same cryostat are rejected with the sentinel. -/
theorem C2_wireIDsIntersect_witness :
    WireIDIntersectionCheck trivialWireGeometry
      ⟨true, 0, 0, 0, 0⟩ ⟨true, 0, 1, 0, 0⟩ = false ∧
    WireIDsIntersect trivialWireGeometry
      ⟨true, 0, 0, 0, 0⟩ ⟨true, 0, 1, 0, 0⟩ = (false, noIntersection) :=
  C2_wireIDsIntersect_invalidArgument trivialWireGeometry
    ⟨true, 0, 0, 0, 0⟩ ⟨true, 0, 1, 0, 0⟩ (Or.inl rfl)

/-- Claim C3, amended: whenever `WireIDsIntersect` reports no intersection
the returned record carries the invalid TPC index; the full sentinel —
infinite y and z on top of the invalid TPC — is what the record holds
when the precondition fails or the supporting lines are parallel, whereas
a crossing point outside the segments leaves its finite coordinates in the
record. -/
theorem C3_sentinel_amended (g : WireGeometry) (w1 w2 : WireID) :
    ((WireIDsIntersect g w1 w2).1 = false →
      (WireIDsIntersect g w1 w2).2.TPC = InvalidID) ∧
    ((WireIDIntersectionCheck g w1 w2 = false ∨ wireCrossing g w1 w2 = none) →
      WireIDsIntersect g w1 w2 = (false, noIntersection)) := by
  by_cases hc : WireIDIntersectionCheck g w1 w2 = true
  · cases hx : wireCrossing g w1 w2 with
    | none =>
      constructor
      · intro _
        simp [WireIDsIntersect, hc, hx, noIntersection]
      · intro _
        simp [WireIDsIntersect, hc, hx]
    | some p =>
      constructor
      · intro hf
        by_cases hw : wireWithin g w1 w2 p = true
        · exfalso
          have ht : (WireIDsIntersect g w1 w2).1 = true := by
            simp [WireIDsIntersect, hc, hx, hw]
          rw [hf] at ht
          exact Bool.false_ne_true ht
        · have hwf : wireWithin g w1 w2 p = false := Bool.eq_false_iff.mpr hw
          simp [WireIDsIntersect, hc, hx, hwf]
      · rintro (h | h)
        · exact absurd (hc.symm.trans h) (by simp)
        · exact absurd h (by simp)
  · have hcf : WireIDIntersectionCheck g w1 w2 = false := Bool.eq_false_iff.mpr hc
    constructor
    · intro _
      simp [WireIDsIntersect, hcf, noIntersection]
    · intro _
      simp [WireIDsIntersect, hcf]

/-- Wire geometry of the C3 counterexample: wires of plane 0 run from
(y, z) = (0, 0) to (1, 0), all other wires from (3, -1) to (3, 1); the
supporting lines cross at (3, 0), outside the first wire's segment. -/
def crossingOutsideGeometry : WireGeometry where
  hasWire := fun _ => true
  wireEndPoints := fun wid =>
    if wid.Plane = 0 then ⟨⟨0, 0, 0⟩, ⟨0, 1, 0⟩⟩ else ⟨⟨0, 3, -1⟩, ⟨0, 3, 1⟩⟩

/-- Claim C3, counterexample. Two wires of the same TPC on planes 0 and 1
whose supporting lines cross at (y, z) = (3, 0), outside the first wire's
segment: `WireIDsIntersect` reports no intersection, but the record keeps
the finite crossing coordinate y = 3 rather than the claimed infinity. -/
theorem C3_sentinel_counterexample :
    (WireIDsIntersect crossingOutsideGeometry
      ⟨true, 0, 0, 0, 5⟩ ⟨true, 0, 0, 1, 7⟩).1 = false ∧
    (WireIDsIntersect crossingOutsideGeometry
      ⟨true, 0, 0, 0, 5⟩ ⟨true, 0, 0, 1, 7⟩).2.y ≠ CoordQ.inf := by
  have hchk : WireIDIntersectionCheck crossingOutsideGeometry
      ⟨true, 0, 0, 0, 5⟩ ⟨true, 0, 0, 1, 7⟩ = true := rfl
  have hx : wireCrossing crossingOutsideGeometry
      ⟨true, 0, 0, 0, 5⟩ ⟨true, 0, 0, 1, 7⟩ = some (3, 0) := by
    norm_num [wireCrossing, crossingOutsideGeometry, IntersectLines,
      coordIsZero, rabs, coordEps]
  have hw : wireWithin crossingOutsideGeometry
      ⟨true, 0, 0, 0, 5⟩ ⟨true, 0, 0, 1, 7⟩ (3, 0) = false := by
    norm_num [wireWithin, crossingOutsideGeometry, PointWithinSegments,
      withinSorted, rmin, rmax, coordEps]
  constructor <;> simp [WireIDsIntersect, hchk, hx, hw]

/-- Wire geometry whose wires of plane 0 run from (y, z) = (0, 0) to
(1, 0) and all other wires from (0, 1) to (1, 1): parallel lines. -/
def parallelWireGeometry : WireGeometry where
  hasWire := fun _ => true
  wireEndPoints := fun wid =>
    if wid.Plane = 0 then ⟨⟨0, 0, 0⟩, ⟨0, 1, 0⟩⟩ else ⟨⟨0, 0, 1⟩, ⟨0, 1, 1⟩⟩

/-- Witness for claim C3 at a concrete input: two parallel wires receive
the full sentinel. -/
theorem C3_sentinel_witness :
    WireIDsIntersect parallelWireGeometry
      ⟨true, 0, 0, 0, 2⟩ ⟨true, 0, 0, 1, 3⟩ = (false, noIntersection) :=
  (C3_sentinel_amended parallelWireGeometry
      ⟨true, 0, 0, 0, 2⟩ ⟨true, 0, 0, 1, 3⟩).2
    (Or.inr (by
      norm_num [wireCrossing, parallelWireGeometry, IntersectLines,
        coordIsZero, rabs, coordEps]))

/-- Characterization of a failed upward scan: no index of the scanned
range satisfies the predicate. -/
theorem searchFrom_eq_none_iff (pred : ℕ → Bool) (off n : ℕ) :
    searchFrom pred off n = none ↔
      ∀ j, off ≤ j → j < off + n → pred j = false := by
  induction n generalizing off with
  | zero =>
    simp only [searchFrom]
    exact ⟨fun _ j h1 h2 => absurd h2 (by omega), fun _ => trivial⟩
  | succ n ih =>
    rw [searchFrom]
    by_cases hp : pred off = true
    · rw [if_pos hp]
      constructor
      · intro h; cases h
      · intro hall
        have := hall off le_rfl (by omega)
        rw [hp] at this; cases this
    · rw [if_neg hp, ih (off + 1)]
      have hpf : pred off = false := Bool.eq_false_iff.mpr hp
      constructor
      · intro h j hj1 hj2
        rcases Nat.eq_or_lt_of_le hj1 with rfl | hlt
        · exact hpf
        · exact h j (by omega) (by omega)
      · intro h j hj1 hj2
        exact h j (by omega) (by omega)

/-- Characterization of a successful upward scan: it returns the first
index of the range satisfying the predicate. -/
theorem searchFrom_eq_some_iff (pred : ℕ → Bool) (off n c : ℕ) :
    searchFrom pred off n = some c ↔
      off ≤ c ∧ c < off + n ∧ pred c = true ∧
        ∀ j, off ≤ j → j < c → pred j = false := by
  induction n generalizing off with
  | zero =>
    simp only [searchFrom]
    exact ⟨fun h => Option.noConfusion h,
      fun ⟨h1, h2, _⟩ => absurd h2 (by omega)⟩
  | succ n ih =>
    rw [searchFrom]
    by_cases hp : pred off = true
    · rw [if_pos hp]
      constructor
      · intro h
        have hoc : off = c := Option.some_injective ℕ h
        subst hoc
        exact ⟨le_rfl, by omega, hp, fun j hj1 hj2 => absurd hj1 (by omega)⟩
      · rintro ⟨h1, h2, h3, h4⟩
        have hoc : c = off := by
          by_contra hne
          have := h4 off le_rfl (by omega)
          rw [hp] at this; cases this
        rw [hoc]
    · rw [if_neg hp, ih (off + 1)]
      have hpf : pred off = false := Bool.eq_false_iff.mpr hp
      constructor
      · rintro ⟨h1, h2, h3, h4⟩
        refine ⟨by omega, by omega, h3, fun j hj1 hj2 => ?_⟩
        rcases Nat.eq_or_lt_of_le hj1 with rfl | hlt
        · exact hpf
        · exact h4 j (by omega) hj2
      · rintro ⟨h1, h2, h3, h4⟩
        have hoc : off ≠ c := by
          rintro rfl
          rw [h3] at hpf; cases hpf
        exact ⟨by omega, by omega, h3, fun j hj1 hj2 => h4 j (by omega) hj2⟩

/-- Characterization of the scan-with-sentinel used by the containment
lookups, failed case: the sentinel comes back exactly when no index of the
range satisfies the predicate (the range being shorter than the sentinel). -/
theorem getD_searchFrom_eq_invalid_iff (pred : ℕ → Bool) (n : ℕ)
    (hn : n < InvalidID) :
    (searchFrom pred 0 n).getD InvalidID = InvalidID ↔
      ∀ j, j < n → pred j = false := by
  cases hS : searchFrom pred 0 n with
  | none =>
    simp only [Option.getD]
    have := (searchFrom_eq_none_iff pred 0 n).mp hS
    exact ⟨fun _ j hj => this j (by omega) (by omega), fun _ => trivial⟩
  | some c =>
    simp only [Option.getD]
    obtain ⟨-, hcn, hPc, -⟩ := (searchFrom_eq_some_iff pred 0 n c).mp hS
    constructor
    · intro h
      exact absurd (h ▸ hcn) (by omega)
    · intro h
      rw [h c (by omega)] at hPc; cases hPc

/-- Characterization of the scan-with-sentinel, successful case: a
non-sentinel result is the first index of the range satisfying the
predicate. -/
theorem getD_searchFrom_eq_iff (pred : ℕ → Bool) (n c : ℕ)
    (hc : c ≠ InvalidID) :
    (searchFrom pred 0 n).getD InvalidID = c ↔
      c < n ∧ pred c = true ∧ ∀ j, j < c → pred j = false := by
  cases hS : searchFrom pred 0 n with
  | none =>
    simp only [Option.getD]
    constructor
    · intro h; exact absurd h.symm hc
    · rintro ⟨hcn, hPc, -⟩
      have := (searchFrom_eq_none_iff pred 0 n).mp hS c (by omega) (by omega)
      rw [hPc] at this; cases this
  | some d =>
    simp only [Option.getD]
    obtain ⟨-, hdn, hPd, hfirst⟩ := (searchFrom_eq_some_iff pred 0 n d).mp hS
    constructor
    · rintro rfl
      exact ⟨by omega, hPd, fun j hj => hfirst j (by omega) hj⟩
    · rintro ⟨hcn, hPc, hcfirst⟩
      rcases Nat.lt_trichotomy d c with h | h | h
      · rw [hcfirst d h] at hPd; cases hPd
      · exact h
      · rw [hfirst c (by omega) h] at hPc; cases hPc

/-- Claim C4: the containment lookup returns a valid compound ID exactly
when the point passes the wiggled box test — every coordinate between the
two face values, each multiplied by the factor 1 + wiggle — first at the
cryostat level (the first matching cryostat box being retained) and then at
the TPC level within that cryostat; and whenever it fails, the returned ID
carries the invalid sentinel index instead of raising an error. -/
theorem C4_findTPCAtPosition_spec (g : BoxedGeometry) (p : Point3)
    (hnc : g.ncryo < InvalidID) (hnt : ∀ c, g.ntpc c < InvalidID) :
    ((FindTPCAtPosition g p).isValid = true ↔
      ∃ c, c < g.ncryo ∧
        inWiggledBox (1 + g.positionWiggle) (g.cryoCenter c) (g.cryoHalf c) p
          = true ∧
        (∀ j, j < c →
          inWiggledBox (1 + g.positionWiggle) (g.cryoCenter j) (g.cryoHalf j) p
            = false) ∧
        ∃ t, t < g.ntpc c ∧
          inWiggledBox (1 + g.positionWiggle) (g.tpcCenter c t) (g.tpcHalf c t)
            p = true) ∧
    ((FindTPCAtPosition g p).isValid = false →
      (FindTPCAtPosition g p).TPC = InvalidID) := by
  by_cases hcid : FindCryostatAtPosition g p = InvalidID
  · have heq : FindTPCAtPosition g p
        = ⟨false, FindCryostatAtPosition g p, InvalidID⟩ := by
      simp only [FindTPCAtPosition]
      rw [if_pos hcid]
    have hnone : ∀ j, j < g.ncryo →
        inWiggledBox (1 + g.positionWiggle) (g.cryoCenter j) (g.cryoHalf j) p
          = false :=
      (getD_searchFrom_eq_invalid_iff _ g.ncryo hnc).mp hcid
    constructor
    · rw [heq]
      constructor
      · intro h; cases h
      · rintro ⟨c, hc, hbox, -, -⟩
        rw [hnone c hc] at hbox; cases hbox
    · rw [heq]
      intro _; rfl
  · obtain ⟨hcn, hcbox, hcfirst⟩ :=
      (getD_searchFrom_eq_iff _ g.ncryo (FindCryostatAtPosition g p)
        hcid).mp rfl
    by_cases htid :
        findTPCWithinCryostat g (FindCryostatAtPosition g p) p = InvalidID
    · have heq : FindTPCAtPosition g p
          = ⟨false, FindCryostatAtPosition g p, InvalidID⟩ := by
        simp only [FindTPCAtPosition]
        rw [if_neg hcid]
        rw [htid, if_pos rfl]
      have hnone : ∀ t, t < g.ntpc (FindCryostatAtPosition g p) →
          inWiggledBox (1 + g.positionWiggle)
            (g.tpcCenter (FindCryostatAtPosition g p) t)
            (g.tpcHalf (FindCryostatAtPosition g p) t) p = false :=
        (getD_searchFrom_eq_invalid_iff _ _
          (hnt (FindCryostatAtPosition g p))).mp htid
      constructor
      · rw [heq]
        constructor
        · intro h; cases h
        · rintro ⟨c, hc, hbox, hfirst, t, ht, htbox⟩
          have hceq : c = FindCryostatAtPosition g p := by
            rcases Nat.lt_trichotomy c (FindCryostatAtPosition g p)
              with h | h | h
            · rw [hcfirst c h] at hbox; cases hbox
            · exact h
            · rw [hfirst _ h] at hcbox; cases hcbox
          rw [hceq] at ht htbox
          rw [hnone t ht] at htbox; cases htbox
      · rw [heq]
        intro _; rfl
    · have heq : FindTPCAtPosition g p
          = ⟨true, FindCryostatAtPosition g p,
              findTPCWithinCryostat g (FindCryostatAtPosition g p) p⟩ := by
        simp only [FindTPCAtPosition]
        rw [if_neg hcid, if_neg htid]
      obtain ⟨htn, htbox, -⟩ :=
        (getD_searchFrom_eq_iff _ (g.ntpc (FindCryostatAtPosition g p))
          (findTPCWithinCryostat g (FindCryostatAtPosition g p) p)
          htid).mp rfl
      constructor
      · rw [heq]
        refine ⟨fun _ => ?_, fun _ => rfl⟩
        exact ⟨FindCryostatAtPosition g p, hcn, hcbox, hcfirst,
          findTPCWithinCryostat g (FindCryostatAtPosition g p) p, htn, htbox⟩
      · rw [heq]
        intro h; cases h

/-- Boxed geometry with one cryostat and one TPC, both centered at the
origin with unit half-dimensions, and the default 1e-4 wiggle. -/
def c4Geometry : BoxedGeometry where
  ncryo := 1
  cryoCenter := fun _ => ⟨0, 0, 0⟩
  cryoHalf := fun _ => ⟨1, 1, 1⟩
  ntpc := fun _ => 1
  tpcCenter := fun _ _ => ⟨0, 0, 0⟩
  tpcHalf := fun _ _ => ⟨1, 1, 1⟩
  positionWiggle := 1 / 10000

/-- Witness for claim C4 at a concrete input: the origin lies inside the
wiggled boxes of cryostat 0 and its TPC 0, so the lookup returns a valid
ID. -/
theorem C4_findTPCAtPosition_witness :
    (FindTPCAtPosition c4Geometry ⟨0, 0, 0⟩).isValid = true :=
  ((C4_findTPCAtPosition_spec c4Geometry ⟨0, 0, 0⟩
      (by norm_num [c4Geometry, InvalidID])
      (fun c => by norm_num [c4Geometry, InvalidID])).1).mpr
    ⟨0, by norm_num [c4Geometry],
      by norm_num [inWiggledBox, c4Geometry],
      fun j hj => absurd hj (Nat.not_lt_zero j),
      0, by norm_num [c4Geometry],
      by norm_num [inWiggledBox, c4Geometry]⟩

/-- Claim C7: the nearest-channel query is exactly the wire-to-channel
mapping composed with the nearest-wire lookup; nothing else intervenes. -/
theorem C7_nearestChannel_composition (g : ChannelQueryModel)
    (worldPos : Point3) (planeid : PlaneID) :
    NearestChannel g worldPos planeid
      = PlaneWireToChannel g (NearestWireID g worldPos planeid) := rfl

/-- Claim C8: round trip through the channel map — the channel assigned to
a wire of the geometry maps back to a wire list containing that wire. -/
theorem C8_channelMap_roundTrip (d : GeomDims) (wid : WireID)
    (hv : wid.isValid = true) (hcb : wid.Cryostat < d.ncryo)
    (htb : wid.TPC < d.ntpc wid.Cryostat)
    (hpb : wid.Plane < d.nplanes wid.Cryostat wid.TPC)
    (hwb : wid.Wire < d.nwires wid.Cryostat wid.TPC wid.Plane) :
    wid ∈ stdChannelToWire d (stdPlaneWireToChannel d wid) := by
  have hmem : wid ∈ allWires d := by
    unfold allWires
    refine List.mem_flatMap.mpr ⟨wid.Cryostat, List.mem_range.mpr hcb, ?_⟩
    refine List.mem_flatMap.mpr ⟨wid.TPC, List.mem_range.mpr htb, ?_⟩
    refine List.mem_flatMap.mpr ⟨wid.Plane, List.mem_range.mpr hpb, ?_⟩
    refine List.mem_map.mpr ⟨wid.Wire, List.mem_range.mpr hwb, ?_⟩
    cases wid
    simp_all
  have hlt : (allWires d).indexOf wid < (allWires d).length :=
    List.indexOf_lt_length.mpr hmem
  unfold stdChannelToWire stdPlaneWireToChannel
  rw [dif_pos hlt]
  exact List.mem_singleton.mpr (List.indexOf_get hlt).symm

/-- Element counts of a small test geometry: one cryostat, one TPC, two
planes of three wires each. -/
def c8Dims : GeomDims where
  ncryo := 1
  ntpc := fun _ => 1
  nplanes := fun _ _ => 2
  nwires := fun _ _ _ => 3

/-- Witness for claim C8 at a concrete input: the last wire of the second
plane survives the round trip. -/
theorem C8_channelMap_roundTrip_witness :
    (⟨true, 0, 0, 1, 2⟩ : WireID) ∈
      stdChannelToWire c8Dims (stdPlaneWireToChannel c8Dims
        ⟨true, 0, 0, 1, 2⟩) :=
  C8_channelMap_roundTrip c8Dims ⟨true, 0, 0, 1, 2⟩ rfl
    (by norm_num [c8Dims]) (by norm_num [c8Dims]) (by norm_num [c8Dims])
    (by norm_num [c8Dims])

/-- Lexicographic order on the index pair of TPC IDs, written from the
spec's words ("comparison is lexicographic by nesting order"), to be
compared against the code's comparison chain. -/
def tpcLex (a b : TPCID) : Prop :=
  a.Cryostat < b.Cryostat ∨ (a.Cryostat = b.Cryostat ∧ a.TPC < b.TPC)

/-- Lexicographic order on the index triple of plane IDs, written from the
spec's words. -/
def planeLex (a b : PlaneID) : Prop :=
  a.Cryostat < b.Cryostat ∨
    (a.Cryostat = b.Cryostat ∧
      (a.TPC < b.TPC ∨ (a.TPC = b.TPC ∧ a.Plane < b.Plane)))

/-- Lexicographic order on the index quadruple of wire IDs, written from
the spec's words. -/
def wireLex (a b : WireID) : Prop :=
  a.Cryostat < b.Cryostat ∨
    (a.Cryostat = b.Cryostat ∧
      (a.TPC < b.TPC ∨
        (a.TPC = b.TPC ∧
          (a.Plane < b.Plane ∨ (a.Plane = b.Plane ∧ a.Wire < b.Wire)))))

theorem threeWay_neg (a b : ℕ) : ThreeWayComparison a b < 0 ↔ a < b := by
  unfold ThreeWayComparison
  split_ifs <;> omega

theorem threeWay_zero (a b : ℕ) : ThreeWayComparison a b = 0 ↔ a = b := by
  unfold ThreeWayComparison
  split_ifs with h1 h2
  · omega
  · constructor
    · intro hx
      exact absurd hx (by norm_num)
    · intro hx
      exact absurd hx h1
  · constructor
    · intro hx
      exact absurd hx (by norm_num)
    · intro hx
      exact absurd hx h1

theorem threeWay_pos (a b : ℕ) : 0 < ThreeWayComparison a b ↔ b < a := by
  unfold ThreeWayComparison
  split_ifs <;> omega

theorem tpcCmp_neg (a b : TPCID) : TPCID.cmp a b < 0 ↔ tpcLex a b := by
  simp only [TPCID.cmp, CryostatID.cmp, TPCID.asCryostatID]
  unfold tpcLex
  split_ifs with h
  · rw [threeWay_zero] at h
    rw [threeWay_neg]
    omega
  · rw [threeWay_zero] at h
    rw [threeWay_neg]
    omega

theorem tpcCmp_zero (a b : TPCID) :
    TPCID.cmp a b = 0 ↔ a.Cryostat = b.Cryostat ∧ a.TPC = b.TPC := by
  simp only [TPCID.cmp, CryostatID.cmp, TPCID.asCryostatID]
  split_ifs with h
  · rw [threeWay_zero] at h
    rw [threeWay_zero]
    omega
  · rw [threeWay_zero] at h
    rw [threeWay_zero]
    omega

theorem tpcCmp_pos (a b : TPCID) : 0 < TPCID.cmp a b ↔ tpcLex b a := by
  simp only [TPCID.cmp, CryostatID.cmp, TPCID.asCryostatID]
  unfold tpcLex
  split_ifs with h
  · rw [threeWay_zero] at h
    rw [threeWay_pos]
    omega
  · rw [threeWay_zero] at h
    rw [threeWay_pos]
    omega

theorem tpcLt_iff (a b : TPCID) : TPCID.lt a b = true ↔ tpcLex a b := by
  simp only [TPCID.lt, CryostatID.cmp, TPCID.asCryostatID]
  unfold tpcLex
  split_ifs with h
  · rw [threeWay_zero] at h
    simp only [decide_eq_true_eq]
    omega
  · rw [threeWay_zero] at h
    simp only [decide_eq_true_eq, threeWay_neg]
    omega

theorem planeCmp_neg (a b : PlaneID) : PlaneID.cmp a b < 0 ↔ planeLex a b := by
  simp only [PlaneID.cmp]
  unfold planeLex
  split_ifs with h
  · rw [tpcCmp_zero] at h
    simp only [PlaneID.asTPCID] at h
    rw [threeWay_neg]
    omega
  · rw [tpcCmp_zero] at h
    simp only [PlaneID.asTPCID] at h
    rw [tpcCmp_neg]
    unfold tpcLex
    simp only [PlaneID.asTPCID]
    omega

theorem planeCmp_zero (a b : PlaneID) :
    PlaneID.cmp a b = 0 ↔
      a.Cryostat = b.Cryostat ∧ a.TPC = b.TPC ∧ a.Plane = b.Plane := by
  simp only [PlaneID.cmp]
  split_ifs with h
  · rw [tpcCmp_zero] at h
    simp only [PlaneID.asTPCID] at h
    rw [threeWay_zero]
    omega
  · rw [tpcCmp_zero] at h
    simp only [PlaneID.asTPCID] at h
    rw [tpcCmp_zero]
    simp only [PlaneID.asTPCID]
    constructor
    · intro hc
      exact absurd hc h
    · intro hc
      exact absurd ⟨hc.1, hc.2.1⟩ h

theorem planeCmp_pos (a b : PlaneID) : 0 < PlaneID.cmp a b ↔ planeLex b a := by
  simp only [PlaneID.cmp]
  unfold planeLex
  split_ifs with h
  · rw [tpcCmp_zero] at h
    simp only [PlaneID.asTPCID] at h
    rw [threeWay_pos]
    omega
  · rw [tpcCmp_zero] at h
    simp only [PlaneID.asTPCID] at h
    rw [tpcCmp_pos]
    unfold tpcLex
    simp only [PlaneID.asTPCID]
    omega

theorem planeLt_iff (a b : PlaneID) :
    PlaneID.lt a b = true ↔ planeLex a b := by
  simp only [PlaneID.lt]
  unfold planeLex
  split_ifs with h
  · rw [tpcCmp_zero] at h
    simp only [PlaneID.asTPCID] at h
    simp only [decide_eq_true_eq]
    omega
  · rw [tpcCmp_zero] at h
    simp only [PlaneID.asTPCID] at h
    simp only [decide_eq_true_eq]
    rw [tpcCmp_neg]
    unfold tpcLex
    simp only [PlaneID.asTPCID]
    omega

theorem wireCmp_neg (a b : WireID) : WireID.cmp a b < 0 ↔ wireLex a b := by
  simp only [WireID.cmp]
  unfold wireLex
  split_ifs with h
  · rw [planeCmp_zero] at h
    simp only [WireID.asPlaneID] at h
    rw [threeWay_neg]
    omega
  · rw [planeCmp_zero] at h
    simp only [WireID.asPlaneID] at h
    rw [planeCmp_neg]
    unfold planeLex
    simp only [WireID.asPlaneID]
    omega

theorem wireCmp_zero (a b : WireID) :
    WireID.cmp a b = 0 ↔
      a.Cryostat = b.Cryostat ∧ a.TPC = b.TPC ∧ a.Plane = b.Plane ∧
        a.Wire = b.Wire := by
  simp only [WireID.cmp]
  split_ifs with h
  · rw [planeCmp_zero] at h
    simp only [WireID.asPlaneID] at h
    rw [threeWay_zero]
    omega
  · rw [planeCmp_zero] at h
    simp only [WireID.asPlaneID] at h
    rw [planeCmp_zero]
    simp only [WireID.asPlaneID]
    constructor
    · intro hc
      exact absurd hc h
    · intro hc
      exact absurd ⟨hc.1, hc.2.1, hc.2.2.1⟩ h

theorem wireCmp_pos (a b : WireID) : 0 < WireID.cmp a b ↔ wireLex b a := by
  simp only [WireID.cmp]
  unfold wireLex
  split_ifs with h
  · rw [planeCmp_zero] at h
    simp only [WireID.asPlaneID] at h
    rw [threeWay_pos]
    omega
  · rw [planeCmp_zero] at h
    simp only [WireID.asPlaneID] at h
    rw [planeCmp_pos]
    unfold planeLex
    simp only [WireID.asPlaneID]
    omega

theorem wireLt_iff (a b : WireID) : WireID.lt a b = true ↔ wireLex a b := by
  simp only [WireID.lt]
  unfold wireLex
  split_ifs with h
  · rw [planeCmp_zero] at h
    simp only [WireID.asPlaneID] at h
    simp only [decide_eq_true_eq]
    omega
  · rw [planeCmp_zero] at h
    simp only [WireID.asPlaneID] at h
    simp only [decide_eq_true_eq]
    rw [planeCmp_neg]
    unfold planeLex
    simp only [WireID.asPlaneID]
    omega

/-- Claim C9: for wire, plane and TPC IDs alike, the less-than operator
agrees with lexicographic order on the index tuples (cryostat first, then
TPC, then plane, then wire), and the three-way `cmp` is negative, zero or
positive exactly as the first tuple is lexicographically below, equal to,
or above the second. -/
theorem C9_idComparison_lex :
    (∀ a b : WireID,
      (WireID.lt a b = true ↔ wireLex a b) ∧
      (WireID.cmp a b < 0 ↔ wireLex a b) ∧
      (WireID.cmp a b = 0 ↔
        a.Cryostat = b.Cryostat ∧ a.TPC = b.TPC ∧ a.Plane = b.Plane ∧
          a.Wire = b.Wire) ∧
      (0 < WireID.cmp a b ↔ wireLex b a)) ∧
    (∀ a b : PlaneID,
      (PlaneID.lt a b = true ↔ planeLex a b) ∧
      (PlaneID.cmp a b < 0 ↔ planeLex a b) ∧
      (PlaneID.cmp a b = 0 ↔
        a.Cryostat = b.Cryostat ∧ a.TPC = b.TPC ∧ a.Plane = b.Plane) ∧
      (0 < PlaneID.cmp a b ↔ planeLex b a)) ∧
    (∀ a b : TPCID,
      (TPCID.lt a b = true ↔ tpcLex a b) ∧
      (TPCID.cmp a b < 0 ↔ tpcLex a b) ∧
      (TPCID.cmp a b = 0 ↔ a.Cryostat = b.Cryostat ∧ a.TPC = b.TPC) ∧
      (0 < TPCID.cmp a b ↔ tpcLex b a)) := by
  exact ⟨fun a b => ⟨wireLt_iff a b, wireCmp_neg a b, wireCmp_zero a b,
      wireCmp_pos a b⟩,
    fun a b => ⟨planeLt_iff a b, planeCmp_neg a b, planeCmp_zero a b,
      planeCmp_pos a b⟩,
    fun a b => ⟨tpcLt_iff a b, tpcCmp_neg a b, tpcCmp_zero a b,
      tpcCmp_pos a b⟩⟩

end Larcore
